import Mathlib

/-!
Shallow embedding of `src/omrgen.py` (spreadsheet-to-OMR-sheet generator).

Modelling conventions:
* Spreadsheet cell values are modelled as `Option String`: `none` stands for a
  missing cell (pandas `NaN`, for which `pd.isna` is true) and `some s` for a
  textual cell; `str(v)` of a textual cell is the text itself.
* Python real arithmetic is modelled exactly over `ℚ`.  `float(...)` string
  parsing is modelled by `pyFloatParse`, covering surrounding whitespace, an
  optional sign, decimal mantissas with optional fractional part and exponent,
  and the special spellings inf / infinity / nan.  Binary rounding, overflow
  of large finite literals to infinity, and underscore digit separators are
  outside the model.
* Character classes (`str.strip`, `str.isdigit`, the regexes for digits and
  whitespace) are modelled over ASCII.
-/

namespace OMRGen

/-- ASCII whitespace, modelling Python `str.strip` / the whitespace regex class. -/
def pyIsSpace (c : Char) : Bool :=
  c == ' ' || c == '\t' || c == '\n' || c == '\r' || c == '\x0b' || c == '\x0c'

/-- Drop leading whitespace characters. -/
def stripLeft : List Char → List Char
  | [] => []
  | c :: cs => if pyIsSpace c then stripLeft cs else c :: cs

/-- Python `str.strip()` on the character list: drop whitespace at both ends. -/
def pyStripList (cs : List Char) : List Char :=
  ((stripLeft (stripLeft cs).reverse)).reverse

/-- Python `str.strip()` on strings. -/
def pyStrip (s : String) : String :=
  ⟨pyStripList s.data⟩

/-- Value of an ASCII digit character. -/
def digitVal (c : Char) : Nat :=
  c.toNat - 48

/-- Python `int(...)` of a string of decimal digits. -/
def digitsToNat (cs : List Char) : Nat :=
  cs.foldl (fun a c => a * 10 + digitVal c) 0

/-- Split a character list into its leading run of digits and the rest. -/
def splitDigits : List Char → List Char × List Char
  | [] => ([], [])
  | c :: cs =>
    if c.isDigit then
      let p := splitDigits cs
      (c :: p.1, p.2)
    else ([], c :: cs)

/-- The regex search for the first run of digits anywhere in the string
(`re.search` of a digit-run pattern in `parse_class_value`). -/
def firstDigitRun : List Char → Option (List Char)
  | [] => none
  | c :: cs => if c.isDigit then some (c :: (splitDigits cs).1) else firstDigitRun cs

/-- Python `str.isdigit()` over ASCII: nonempty and all characters digits. -/
def pyIsDigitStr (cs : List Char) : Bool :=
  !cs.isEmpty && cs.all Char.isDigit

/-- Result of Python `float(...)` on a string: an exactly represented finite
decimal `± (num / 10 ^ frac) * 10 ^ ex`, a signed infinity, or nan; `none`
models a `ValueError`. -/
inductive PyFloatVal where
  | finite (neg : Bool) (num : Nat) (frac : Nat) (ex : ℤ)
  | infval (neg : Bool)
  | nanval
  deriving DecidableEq

/-- Parse the unsigned mantissa part of a float literal: digits with an
optional decimal point; returns the mantissa digits' value, the number of
fractional digits, and the unconsumed rest. -/
def parseMantissa (cs : List Char) : Option (Nat × Nat × List Char) :=
  let ip := splitDigits cs
  match ip.2 with
  | '.' :: r2 =>
    let fp := splitDigits r2
    if ip.1 = [] ∧ fp.1 = [] then none
    else some (digitsToNat (ip.1 ++ fp.1), fp.1.length, fp.2)
  | _ => if ip.1 = [] then none else some (digitsToNat ip.1, 0, ip.2)

/-- Parse the optional exponent part of a float literal; the rest of the
string must be consumed entirely. -/
def parseExpPart : List Char → Option ℤ
  | [] => some 0
  | 'e' :: r =>
    let sgn : Bool × List Char :=
      match r with
      | '+' :: r2 => (false, r2)
      | '-' :: r2 => (true, r2)
      | _ => (false, r)
    let dp := splitDigits sgn.2
    if dp.1 = [] ∨ dp.2 ≠ [] then none
    else some (if sgn.1 then -(digitsToNat dp.1 : ℤ) else (digitsToNat dp.1 : ℤ))
  | _ => none

/-- Python `float(s)` for a string `s`: strip whitespace, case-insensitive,
optional sign, then a decimal mantissa with optional exponent, or one of the
special spellings inf / infinity / nan.  `none` models a `ValueError`. -/
def pyFloatParse (s : String) : Option PyFloatVal :=
  let cs := (pyStripList s.data).map Char.toLower
  let sgn : Bool × List Char :=
    match cs with
    | '+' :: r => (false, r)
    | '-' :: r => (true, r)
    | _ => (false, cs)
  if sgn.2 = ['i', 'n', 'f'] ∨ sgn.2 = ['i', 'n', 'f', 'i', 'n', 'i', 't', 'y'] then
    some (.infval sgn.1)
  else if sgn.2 = ['n', 'a', 'n'] then some .nanval
  else
    match parseMantissa sgn.2 with
    | none => none
    | some m =>
      match parseExpPart m.2.2 with
      | none => none
      | some e => some (.finite sgn.1 m.1 m.2.1 e)

/-- Python `int(...)` of the finite float `± (num / 10 ^ frac) * 10 ^ ex`:
truncation toward zero, computed exactly in integer arithmetic. -/
def pyFloatTruncInt (neg : Bool) (num frac : Nat) (ex : ℤ) : ℤ :=
  let up := num * 10 ^ ex.toNat
  let down := 10 ^ frac * 10 ^ (-ex).toNat
  let mag := up / down
  if neg then -(mag : ℤ) else (mag : ℤ)

/-- Decimal digits of a natural number (fuel-driven, fuel `n + 1` suffices). -/
def natToDigitsAux : Nat → Nat → List Char
  | 0, _ => []
  | fuel + 1, n =>
    if n < 10 then [Char.ofNat (48 + n)]
    else natToDigitsAux fuel (n / 10) ++ [Char.ofNat (48 + n % 10)]

/-- Python `str(...)` of a natural number. -/
def natToStr (n : Nat) : String :=
  ⟨natToDigitsAux (n + 1) n⟩

/-- Python `str(...)` of an integer. -/
def intToStr (i : ℤ) : String :=
  if i < 0 then "-" ++ natToStr i.natAbs else natToStr i.natAbs

/-- Python `str.zfill(w)`: left-pad with zeros to width `w`, keeping a leading
sign character in front of the padding. -/
def zfill (w : Nat) (s : String) : String :=
  if w ≤ s.data.length then s
  else
    match s.data with
    | [] => ⟨List.replicate w '0'⟩
    | c :: rest =>
      if c = '+' ∨ c = '-' then ⟨c :: (List.replicate (w - s.data.length) '0' ++ rest)⟩
      else ⟨List.replicate (w - s.data.length) '0' ++ s.data⟩

/-- Python slicing `s[:n]`. -/
def strTake (n : Nat) (s : String) : String :=
  ⟨s.data.take n⟩

/-- Result of `format_roll_value`: a returned string, or the uncaught
`OverflowError` that `int(...)` raises on an infinite float (the source only
catches `ValueError`). -/
inductive RollResult where
  | ok (s : String)
  | overflowError
  deriving DecidableEq

/-- `format_roll_value` from `src/omrgen.py`: `"000"` for missing/blank input,
`str(int(float(v))).zfill(3)` when the numeric parse succeeds, and the
fallback `str(v).zfill(3)[:3]` when it raises `ValueError`. -/
def format_roll_value (v : Option String) : RollResult :=
  match v with
  | none => .ok "000"
  | some s =>
    if pyStrip s = "" then .ok "000"
    else
      match pyFloatParse s with
      | some (.finite neg num frac ex) => .ok (zfill 3 (intToStr (pyFloatTruncInt neg num frac ex)))
      | some (.infval _) => .overflowError
      | some .nanval => .ok (strTake 3 (zfill 3 s))
      | none => .ok (strTake 3 (zfill 3 s))

/-- The integer produced by the successful numeric branch of
`format_roll_value`, if any. -/
def numericParseOf (v : Option String) : Option ℤ :=
  match v with
  | none => none
  | some s =>
    match pyFloatParse s with
    | some (.finite neg num frac ex) => some (pyFloatTruncInt neg num frac ex)
    | _ => none

/-- The Roman-numeral table of `parse_class_value`. -/
def roman_map : List (String × Nat) :=
  [("i", 1), ("ii", 2), ("iii", 3), ("iv", 4), ("v", 5),
   ("vi", 6), ("vii", 7), ("viii", 8), ("ix", 9), ("x", 10),
   ("xi", 11), ("xii", 12)]

/-- The English ordinal-word table of `parse_class_value`. -/
def words_map : List (String × Nat) :=
  [("first", 1), ("second", 2), ("third", 3), ("fourth", 4), ("fifth", 5),
   ("sixth", 6), ("seventh", 7), ("eighth", 8), ("ninth", 9), ("tenth", 10),
   ("eleventh", 11), ("twelfth", 12)]

/-- `str(class_val).strip().lower()` as a character list. -/
def classNorm (s : String) : List Char :=
  (pyStripList s.data).map Char.toLower

/-- `parse_class_value` from `src/omrgen.py`: missing value, all-digit string,
first digit run, Roman-numeral table, ordinal-word table, else no value. -/
def parse_class_value (v : Option String) : Option Nat :=
  match v with
  | none => none
  | some raw =>
    let s := classNorm raw
    if pyIsDigitStr s then some (digitsToNat s)
    else
      match firstDigitRun s with
      | some run => some (digitsToNat run)
      | none =>
        match List.lookup (⟨s⟩ : String) roman_map with
        | some n => some n
        | none => List.lookup (⟨s⟩ : String) words_map

/-- `normalize_col_name` from `src/omrgen.py`: for falsy input (missing value
or empty string) return `""`, else lowercase, strip, and keep only
characters in a-z / 0-9. -/
def normalize_col_name (v : Option String) : String :=
  match v with
  | none => ""
  | some s =>
    if s = "" then ""
    else ⟨(pyStripList (s.data.map Char.toLower)).filter (fun c => c.isDigit || ('a' ≤ c && c ≤ 'z'))⟩

/-- Does `hay` start with `needle`? -/
def startsWithList : List Char → List Char → Bool
  | _, [] => true
  | [], _ :: _ => false
  | h :: hs, n :: ns => h == n && startsWithList hs ns

/-- Python substring membership `needle in hay`. -/
def containsSub (needle : List Char) : List Char → Bool
  | [] => needle.isEmpty
  | c :: hs => startsWithList (c :: hs) needle || containsSub needle hs

/-- The exact pass of `find_column`: first column (in original order) whose
normalized name equals one of the aliases. -/
def findExact (aliases : List String) : List (String × String) → Option String
  | [] => none
  | p :: rest => if aliases.any (fun a => p.2 == a) then some p.1 else findExact aliases rest

/-- The loose pass of `find_column`: first column whose normalized name
contains one of the aliases as a substring. -/
def findLoose (aliases : List String) : List (String × String) → Option String
  | [] => none
  | p :: rest =>
    if aliases.any (fun a => containsSub a.data p.2.data) then some p.1
    else findLoose aliases rest

/-- `find_column` from `src/omrgen.py`: the exact pass over the ordered
(original, normalized) column pairs, then the loose substring pass. -/
def find_column (df_cols_norm : List (String × String)) (aliases : List String) : Option String :=
  match findExact aliases df_cols_norm with
  | some c => some c
  | none => findLoose aliases df_cols_norm

/-- The characters replaced by `_` in `safe_filename`. -/
def badChars : List Char :=
  ['\\', '/', '*', '?', ':', '"', '<', '>', '|']

/-- Replace every maximal run of whitespace by a single `_` (the whitespace
regex substitution in `safe_filename`). -/
def collapseWs : List Char → List Char
  | [] => []
  | [c] => if pyIsSpace c then ['_'] else [c]
  | c :: c2 :: cs =>
    if pyIsSpace c then
      if pyIsSpace c2 then collapseWs (c2 :: cs)
      else '_' :: collapseWs (c2 :: cs)
    else c :: collapseWs (c2 :: cs)

/-- `safe_filename` from `src/omrgen.py`: strip, replace each reserved
filesystem character by `_`, collapse whitespace runs to `_`, truncate
to 200 characters. -/
def safe_filename (s : String) : String :=
  let s1 := pyStripList s.data
  let s2 := s1.map (fun c => if badChars.contains c then '_' else c)
  let s3 := collapseWs s2
  ⟨s3.take 200⟩

/-- The `reportlab` unit `cm` (points per centimetre), exactly `72 / 2.54`. -/
def cm : ℚ :=
  72 / 2.54

/-- Master-template bubble x calibration constants (in calibration cm). -/
def MASTER_ROLL_X_CM : List ℚ :=
  [10.1, 11.5, 12.9]

/-- Master-template bubble top y calibration constants. -/
def MASTER_BUBBLE_Y_TOP_CM : List ℚ :=
  [22, 22, 22]

/-- Master-template vertical spacing between bubble rows. -/
def MASTER_BUBBLE_SPACING_CM : ℚ :=
  0.62

/-- Master-template bubble radius. -/
def MASTER_BUBBLE_RADIUS_CM : ℚ :=
  0.24

/-- Horizontal shift applied to the child calibration constants. -/
def SHIFT_X_CM : ℚ :=
  6

/-- Vertical shift applied to the child calibration constants. -/
def SHIFT_Y_CM : ℚ :=
  -0.3

/-- Child-template bubble x calibration constants. -/
def CHILD_ROLL_X_CM : List ℚ :=
  [9.9 + SHIFT_X_CM, 11.3 + SHIFT_X_CM, 12.6 + SHIFT_X_CM]

/-- Child-template bubble top y calibration constants. -/
def CHILD_BUBBLE_Y_TOP_CM : List ℚ :=
  [21.5 + SHIFT_Y_CM, 21.5 + SHIFT_Y_CM, 21.5 + SHIFT_Y_CM]

/-- Child-template vertical spacing between bubble rows. -/
def CHILD_BUBBLE_SPACING_CM : ℚ :=
  0.61

/-- Child-template bubble radius. -/
def CHILD_BUBBLE_RADIUS_CM : ℚ :=
  0.23

/-- A drawn circle: centre, radius, paint colour and whether outline / fill
are on (`c.circle(x, y, r, stroke=0, fill=1)` after `setFillColor`). -/
structure Circle where
  x : ℚ
  y : ℚ
  r : ℚ
  color : String
  strokeOn : Bool
  fillOn : Bool
  deriving DecidableEq

/-- A drawn centred text glyph (`c.drawCentredString(x, y, ch)`). -/
structure Glyph where
  x : ℚ
  y : ℚ
  ch : Char
  deriving DecidableEq

/-- Python list indexing `l[i]` for a non-negative index: out of range
raises `IndexError`, modelled as `Except.error ()`. -/
def pyIndex {α : Type} (l : List α) (i : Nat) : Except Unit α :=
  match l.get? i with
  | some a => Except.ok a
  | none => Except.error ()

/-- The loop body of `fill_roll_bubbles_master` over the enumerated roll
characters: non-digits are skipped before any indexing; a digit position
indexes `MASTER_ROLL_X_CM[i]` and `MASTER_BUBBLE_Y_TOP_CM[i]`, raising
`IndexError` for `i ≥ 3`. -/
def fillMasterGo : List (Nat × Char) → Except Unit (List Circle)
  | [] => Except.ok []
  | p :: rest =>
    if p.2.isDigit then
      match pyIndex MASTER_ROLL_X_CM p.1 with
      | Except.error u => Except.error u
      | Except.ok rx =>
        match pyIndex MASTER_BUBBLE_Y_TOP_CM p.1 with
        | Except.error u => Except.error u
        | Except.ok ry =>
          match fillMasterGo rest with
          | Except.error u => Except.error u
          | Except.ok bs =>
            Except.ok
              (({ x := rx * cm / 2.2
                , y := ry * cm - (digitVal p.2 : ℚ) * MASTER_BUBBLE_SPACING_CM * cm
                        - 2.6 * cm + 0.03 * cm
                , r := MASTER_BUBBLE_RADIUS_CM * cm
                , color := "black", strokeOn := false, fillOn := true } : Circle) :: bs)
    else fillMasterGo rest

/-- `fill_roll_bubbles_master` from `src/omrgen.py`: one filled black circle
per digit position of the zero-filled roll string, skipping non-digits; a
digit position at index 3 or later raises an uncaught `IndexError`. -/
def fill_roll_bubbles_master (roll_no : String) : Except Unit (List Circle) :=
  fillMasterGo ((zfill 3 roll_no).data.enum)

/-- The loop body of `fill_roll_bubbles_child`, indexing the child
calibration lists. -/
def fillChildGo : List (Nat × Char) → Except Unit (List Circle)
  | [] => Except.ok []
  | p :: rest =>
    if p.2.isDigit then
      match pyIndex CHILD_ROLL_X_CM p.1 with
      | Except.error u => Except.error u
      | Except.ok rx =>
        match pyIndex CHILD_BUBBLE_Y_TOP_CM p.1 with
        | Except.error u => Except.error u
        | Except.ok ry =>
          match fillChildGo rest with
          | Except.error u => Except.error u
          | Except.ok bs =>
            Except.ok
              (({ x := rx * cm / 2.2
                , y := ry * cm - (digitVal p.2 : ℚ) * CHILD_BUBBLE_SPACING_CM * cm
                        - 2.6 * cm + 0.2 * cm
                , r := CHILD_BUBBLE_RADIUS_CM * cm
                , color := "black", strokeOn := false, fillOn := true } : Circle) :: bs)
    else fillChildGo rest

/-- `fill_roll_bubbles_child` from `src/omrgen.py`. -/
def fill_roll_bubbles_child (roll_no : String) : Except Unit (List Circle) :=
  fillChildGo ((zfill 3 roll_no).data.enum)

/-- The loop body of `draw_roll_number_text`: every position, digit or not,
indexes `x_positions[i]`, raising `IndexError` for `i ≥ 3`. -/
def drawTextGo (xs : List ℚ) (ty : ℚ) : List (Nat × Char) → Except Unit (List Glyph)
  | [] => Except.ok []
  | p :: rest =>
    match pyIndex xs p.1 with
    | Except.error u => Except.error u
    | Except.ok x0 =>
      match drawTextGo xs ty rest with
      | Except.error u => Except.error u
      | Except.ok gs =>
        Except.ok (({ x := x0 * cm / 2.2, y := ty, ch := p.2 } : Glyph) :: gs)

/-- `draw_roll_number_text` from `src/omrgen.py`: one centred glyph per
position of the zero-filled roll string, at the track's text baseline; a
position at index 3 or later raises an uncaught `IndexError`.  The baseline
reads index 0 of a fixed 3-element list, which never fails. -/
def draw_roll_number_text (roll_no : String) (template : String) : Except Unit (List Glyph) :=
  let text_y : ℚ :=
    if template = "master" then MASTER_BUBBLE_Y_TOP_CM.getD 0 0 * cm - 2.1 * cm
    else CHILD_BUBBLE_Y_TOP_CM.getD 0 0 * cm - 2.0 * cm
  let xs : List ℚ := if template = "master" then MASTER_ROLL_X_CM else CHILD_ROLL_X_CM
  drawTextGo xs text_y ((zfill 3 roll_no).data.enum)

/-- Bubble layout as worded by the specification: for each digit position,
centre x is `rollX[i] * cm / 2.2` and centre y is `yTop[i] * cm` minus
`digit * spacing * cm` minus the fixed `2.6 cm` offset plus the per-track
nudge, with the track's fixed radius, filled black with no outline;
non-digit positions are skipped. -/
def bubblesOfSpec (xs ys : List ℚ) (spacing radius nudge : ℚ) (cs : List Char) : List Circle :=
  cs.enum.filterMap (fun p =>
    if p.2.isDigit then
      some { x := xs.getD p.1 0 * cm / 2.2
           , y := ys.getD p.1 0 * cm - (digitVal p.2 : ℚ) * spacing * cm - 2.6 * cm + nudge * cm
           , r := radius * cm
           , color := "black", strokeOn := false, fillOn := true }
    else none)

/-- Digit-label layout as worded by the claim: one centred glyph per
position, unconditionally, at the bubble x positions and a fixed per-track
baseline y. -/
def glyphsOfSpec (xs : List ℚ) (ty : ℚ) (cs : List Char) : List Glyph :=
  cs.enum.map (fun p => { x := xs.getD p.1 0 * cm / 2.2, y := ty, ch := p.2 })

/-- A spreadsheet cell as seen by the row loop: pandas `NaN` for an empty
cell, or text. -/
inductive Cell where
  | na
  | str (s : String)
  deriving DecidableEq

/-- View a cell as the `Option String` consumed by the value normalizers
(`pd.isna` is true exactly on `na`). -/
def cellToOpt : Cell → Option String
  | Cell.na => none
  | Cell.str s => some s

/-- Python truthiness rendering `{value or ' '}` inside the info-table
f-strings: empty text is replaced by a single space; `NaN` is truthy and
renders as the text `nan`. -/
def pyCellDisplay : Cell → String
  | Cell.na => "nan"
  | Cell.str s => if s = "" then " " else s

/-- Aliases for the school-name column (`aliases["school_name"]`). -/
def ALIASES_school_name : List String :=
  ["schoolname", "scoolname", "school"]

/-- Aliases for the class column (`aliases["class"]`). -/
def ALIASES_class : List String :=
  ["class", "grade", "standard"]

/-- Aliases for the division column (`aliases["division"]`). -/
def ALIASES_division : List String :=
  ["division", "section"]

/-- Aliases for the roll-number column (`aliases["roll_no"]`). -/
def ALIASES_roll_no : List String :=
  ["rollno", "rollnumber", "roll_no"]

/-- Aliases for the student-name column (`aliases["student_name"]`). -/
def ALIASES_student_name : List String :=
  ["nameofthestudent", "name", "studentname"]

/-- The per-worksheet column map from canonical fields to the originating
header, if resolved (`col_map`). -/
structure ColMap where
  school_name : Option String
  class_ : Option String
  division : Option String
  roll_no : Option String
  student_name : Option String
  deriving DecidableEq

/-- Build the column map for a worksheet: normalize every header once, then
run `find_column` per canonical field. -/
def resolveColumns (headers : List String) : ColMap :=
  let cols := headers.map (fun h => (h, normalize_col_name (some h)))
  { school_name := find_column cols ALIASES_school_name
  , class_ := find_column cols ALIASES_class
  , division := find_column cols ALIASES_division
  , roll_no := find_column cols ALIASES_roll_no
  , student_name := find_column cols ALIASES_student_name }

/-- `row.get(col_map.get(field), "") if col_map.get(field) else ""`: an
unresolved (or falsy) column yields the empty string, otherwise the row's
cell under that header (missing key defaults to the empty string). -/
def rowGet (row : List (String × Cell)) (col : Option String) : Cell :=
  match col with
  | none => Cell.str ""
  | some c => if c = "" then Cell.str "" else (List.lookup c row).getD (Cell.str "")

/-- `is_child` from the row loop: the parsed class value is present and is
1, 2 or 3. -/
def is_child (parsed : Option Nat) : Bool :=
  match parsed with
  | none => false
  | some n => n == 1 || n == 2 || n == 3

/-- `template_type` from the row loop: `"child"` when `is_child`, else
`"master"`. -/
def template_type (child : Bool) : String :=
  if child then "child" else "master"

/-- The parsed class level of a row under a column map. -/
def rowParsedClass (cmap : ColMap) (row : List (String × Cell)) : Option Nat :=
  parse_class_value (cellToOpt (rowGet row cmap.class_))

/-- The formatted roll number of a row under a column map. -/
def rowRoll (cmap : ColMap) (row : List (String × Cell)) : RollResult :=
  format_roll_value (cellToOpt (rowGet row cmap.roll_no))

/-- The 4-row info-table texts drawn on each page. -/
def infoTableData (student school cls dvn : Cell) : List String :=
  [ "Student Name: " ++ pyCellDisplay student
  , "School: " ++ pyCellDisplay school
  , "Class: " ++ pyCellDisplay cls ++ "      Division: " ++ pyCellDisplay dvn
  , "Question Paper Set: _____________" ]

/-- One generated page: selected template, bubble fills, digit glyphs and
the info table (both template images are modelled as loaded). -/
structure Page where
  template : String
  bubbles : List Circle
  glyphs : List Glyph
  table : List String
  deriving DecidableEq

/-- The body of the per-row loop: format the roll number (an uncaught
`OverflowError` aborts the run), classify the track, and draw the page (an
uncaught `IndexError` from the bubble or glyph loops also aborts). -/
def composeRow (cmap : ColMap) (row : List (String × Cell)) : Except Unit Page :=
  match rowRoll cmap row with
  | RollResult.overflowError => Except.error ()
  | RollResult.ok roll =>
    let child := is_child (rowParsedClass cmap row)
    let ttype := template_type child
    match (if child then fill_roll_bubbles_child roll else fill_roll_bubbles_master roll) with
    | Except.error u => Except.error u
    | Except.ok bubbles =>
      match draw_roll_number_text roll ttype with
      | Except.error u => Except.error u
      | Except.ok glyphs =>
        Except.ok
          { template := ttype
          , bubbles := bubbles
          , glyphs := glyphs
          , table := infoTableData (rowGet row cmap.student_name) (rowGet row cmap.school_name)
                       (rowGet row cmap.class_) (rowGet row cmap.division) }

/-- Process all rows of a worksheet in order, propagating an uncaught
exception. -/
def composeRows (cmap : ColMap) : List (List (String × Cell)) → Except Unit (List Page)
  | [] => Except.ok []
  | r :: rs =>
    match composeRow cmap r with
    | Except.error u => Except.error u
    | Except.ok p =>
      match composeRows cmap rs with
      | Except.error u => Except.error u
      | Except.ok ps => Except.ok (p :: ps)

/-- A worksheet successfully read as tabular data. -/
structure Table where
  headers : List String
  rows : List (List (String × Cell))
  deriving DecidableEq

/-- One worksheet's PDF: resolve columns once, then compose one page per row
in original order. -/
def processSheet (t : Table) : Except Unit (List Page) :=
  composeRows (resolveColumns t.headers) t.rows

/-- A single-quote character, used when quoting sheet names in diagnostics. -/
def sq : String :=
  ⟨[Char.ofNat 39]⟩

/-- The warning emitted when a worksheet cannot be read as tabular data. -/
def readWarning (name e : String) : String :=
  "Could not read sheet " ++ sq ++ name ++ sq ++ ": " ++ e ++ ". Skipping sheet."

/-- The workbook loop: a worksheet that fails to read is skipped with a
warning and processing continues; a readable worksheet contributes one zip
entry named from its sanitized name.  Returns the warnings and the archive
entries, or the uncaught exception that aborts the run. -/
def processWorkbook :
    List (String × Except String Table) → Except Unit (List String × List (String × List Page))
  | [] => Except.ok ([], [])
  | (name, Except.error e) :: rest =>
    match processWorkbook rest with
    | Except.ok pr => Except.ok (readWarning name e :: pr.1, pr.2)
    | Except.error u => Except.error u
  | (name, Except.ok t) :: rest =>
    match processSheet t with
    | Except.error u => Except.error u
    | Except.ok pages =>
      match processWorkbook rest with
      | Except.ok pr => Except.ok (pr.1, (safe_filename name ++ ".pdf", pages) :: pr.2)
      | Except.error u => Except.error u

/-- A worksheet with no recognizable columns and one blank row, used to
instantiate theorems at concrete inputs. -/
def sampleTable : Table :=
  { headers := [], rows := [[]] }

/-- The column map of `sampleTable` (every field unresolved). -/
def sampleColMap : ColMap :=
  resolveColumns sampleTable.headers

/-- The single row of `sampleTable`. -/
def sampleRow : List (String × Cell) :=
  []

/-- A default page value. -/
def pageDefault : Page :=
  { template := "", bubbles := [], glyphs := [], table := [] }

/-- The page composed from the sample row. -/
def samplePage : Page :=
  (composeRow sampleColMap sampleRow).toOption.getD pageDefault

/-- The pages of the sample worksheet. -/
def samplePages : List Page :=
  (processSheet sampleTable).toOption.getD []

/-- A readable worksheet whose single roll cell is `"1234"`: the numeric
path emits the 4-character roll `"1234"`, whose digit at position 3 makes
the bubble loop index `MASTER_ROLL_X_CM[3]` and raise `IndexError`. -/
def crashTable : Table :=
  { headers := ["Roll No"], rows := [[("Roll No", Cell.str "1234")]] }

example : format_roll_value none = .ok "000" := by decide
example : format_roll_value (some "") = .ok "000" := by decide
example : format_roll_value (some "7") = .ok "007" := by decide
example : format_roll_value (some "7.0") = .ok "007" := by decide
example : format_roll_value (some "abc") = .ok "abc" := by decide
example : format_roll_value (some "1234") = .ok "1234" := by decide
example : format_roll_value (some "inf") = .overflowError := by decide
example : format_roll_value (some "-5") = .ok "-05" := by decide
example : parse_class_value (some "III") = some 3 := by decide
example : parse_class_value (some "3") = some 3 := by decide
example : parse_class_value (some "third") = some 3 := by decide
example : parse_class_value (some "xii") = some 12 := by decide
example : parse_class_value (some "grade 10") = some 10 := by decide
example : parse_class_value none = none := by decide
example : parse_class_value (some "zzz") = none := by decide
example : composeRow sampleColMap sampleRow = Except.ok samplePage := by rfl
example : processSheet sampleTable = Except.ok samplePages := by rfl
example : normalize_col_name (some "Roll  No.") = "rollno" := by decide
example :
    find_column [("My Roll No Extra", "myrollnoextra"), ("RollNo", "rollno")] ALIASES_roll_no
      = some "RollNo" := by decide
example : safe_filename "  a b\\c  " = "a_b_c" := by decide
example : samplePage.template = "master" := by rfl

theorem zfill_data_length (w : Nat) (s : String) :
    (zfill w s).data.length = max w s.data.length := by
  obtain ⟨l⟩ := s
  unfold zfill
  by_cases h : w ≤ l.length
  · rw [if_pos h]
    show l.length = max w l.length
    omega
  · rw [if_neg h]
    cases l with
    | nil =>
      show (List.replicate w '0').length = max w ([] : List Char).length
      rw [List.length_replicate]
      simp
    | cons c rest =>
      show (if c = '+' ∨ c = '-'
            then (⟨c :: (List.replicate (w - (c :: rest).length) '0' ++ rest)⟩ : String)
            else (⟨List.replicate (w - (c :: rest).length) '0' ++ c :: rest⟩ : String)).data.length
          = max w (c :: rest).length
      by_cases hs : c = '+' ∨ c = '-'
      · rw [if_pos hs]
        show (c :: (List.replicate (w - (c :: rest).length) '0' ++ rest)).length
          = max w (c :: rest).length
        rw [List.length_cons, List.length_append, List.length_replicate]
        simp only [List.length_cons]
        omega
      · rw [if_neg hs]
        show (List.replicate (w - (c :: rest).length) '0' ++ c :: rest).length
          = max w (c :: rest).length
        rw [List.length_append, List.length_replicate]
        simp only [List.length_cons]
        omega

theorem strTake_data_length (n : Nat) (s : String) :
    (strTake n s).data.length = min n s.data.length := by
  obtain ⟨l⟩ := s
  show (l.take n).length = min n l.length
  rw [List.length_take]

theorem zfill_of_length_le {w : Nat} {s : String} (h : w ≤ s.data.length) :
    zfill w s = s := by
  unfold zfill
  rw [if_pos h]

theorem pyStripList_of_strip_empty {s : String} (h : pyStrip s = "") :
    pyStripList s.data = [] := by
  have := congrArg String.data h
  simpa [pyStrip] using this

theorem pyFloatParse_of_strip_empty {s : String} (h : pyStrip s = "") :
    pyFloatParse s = none := by
  have hl := pyStripList_of_strip_empty h
  simp [pyFloatParse, hl, parseMantissa, splitDigits]

/-- C1 (amended): every returned roll string has at least 3 characters; the
null/blank and parse-failure paths return exactly 3 characters; the numeric
path returns the zero-fill to width 3 of the parsed integer's decimal string
without truncation, so it is longer whenever that string exceeds 3
characters. -/
theorem C1_amended (v : Option String) (s : String)
    (h : format_roll_value v = RollResult.ok s) :
    3 ≤ s.data.length ∧
    (numericParseOf v = none → s.data.length = 3) ∧
    (∀ n : ℤ, numericParseOf v = some n → s = zfill 3 (intToStr n)) := by
  cases v with
  | none =>
    simp only [format_roll_value, RollResult.ok.injEq] at h
    subst h
    refine ⟨by decide, fun _ => by decide, fun n hn => by simp [numericParseOf] at hn⟩
  | some str =>
    simp only [format_roll_value] at h
    by_cases hb : pyStrip str = ""
    · rw [if_pos hb] at h
      have hp := pyFloatParse_of_strip_empty hb
      simp only [RollResult.ok.injEq] at h
      subst h
      refine ⟨by decide, fun _ => by decide, fun n hn => ?_⟩
      simp [numericParseOf, hp] at hn
    · rw [if_neg hb] at h
      cases hp : pyFloatParse str with
      | none =>
        rw [hp] at h
        simp only [RollResult.ok.injEq] at h
        subst h
        refine ⟨?_, fun _ => ?_, fun n hn => ?_⟩
        · rw [strTake_data_length, zfill_data_length]; omega
        · rw [strTake_data_length, zfill_data_length]; omega
        · simp [numericParseOf, hp] at hn
      | some pv =>
        cases pv with
        | finite neg num frac ex =>
          rw [hp] at h
          simp only [RollResult.ok.injEq] at h
          subst h
          refine ⟨?_, fun hnone => ?_, fun n hn => ?_⟩
          · rw [zfill_data_length]; omega
          · simp [numericParseOf, hp] at hnone
          · simp only [numericParseOf, hp, Option.some.injEq] at hn
            rw [hn]
        | infval neg =>
          rw [hp] at h
          simp at h
        | nanval =>
          rw [hp] at h
          simp only [RollResult.ok.injEq] at h
          subst h
          refine ⟨?_, fun _ => ?_, fun n hn => ?_⟩
          · rw [strTake_data_length, zfill_data_length]; omega
          · rw [strTake_data_length, zfill_data_length]; omega
          · simp [numericParseOf, hp] at hn

/-- C1 (counterexample): on input `"1234"` the numeric path returns the
4-character string `"1234"`, so the output is not always exactly 3
characters. -/
theorem C1_counterexample :
    format_roll_value (some "1234") = RollResult.ok "1234" ∧
      ("1234" : String).data.length ≠ 3 := by
  decide

/-- C1 (witness): the amended theorem instantiated at the fallback input
`"abc"`. -/
theorem C1_witness :
    3 ≤ ("abc" : String).data.length ∧
    (numericParseOf (some "abc") = none → ("abc" : String).data.length = 3) ∧
    (∀ n : ℤ, numericParseOf (some "abc") = some n → ("abc" : String) = zfill 3 (intToStr n)) :=
  C1_amended (some "abc") "abc" (by decide)

/-- C6 (amended): coercion failures fall back silently — a failed numeric
parse falls back to pad-and-truncate and an unparseable class value routes
to the master track — and `parse_class_value` never raises; but
`format_roll_value` does raise: it returns the uncaught `OverflowError`
exactly when the non-blank input parses as an infinite float, because the
source catches only `ValueError`. -/
theorem C6_amended :
    (∀ v : Option String, format_roll_value v = RollResult.overflowError ↔
        ∃ s, v = some s ∧ pyStrip s ≠ "" ∧ ∃ b, pyFloatParse s = some (PyFloatVal.infval b))
    ∧ (∀ s : String, pyStrip s ≠ "" → pyFloatParse s = none →
        format_roll_value (some s) = RollResult.ok (strTake 3 (zfill 3 s)))
    ∧ (∀ v : Option String, parse_class_value v = none →
        template_type (is_child (parse_class_value v)) = "master") := by
  refine ⟨fun v => ⟨fun h => ?_, fun h => ?_⟩, fun s hb hp => ?_, fun v hp => ?_⟩
  · cases v with
    | none => simp [format_roll_value] at h
    | some str =>
      simp only [format_roll_value] at h
      by_cases hb : pyStrip str = ""
      · rw [if_pos hb] at h
        simp at h
      · rw [if_neg hb] at h
        cases hp : pyFloatParse str with
        | none => rw [hp] at h; simp at h
        | some pv =>
          cases pv with
          | finite neg num frac ex => rw [hp] at h; simp at h
          | nanval => rw [hp] at h; simp at h
          | infval b => exact ⟨str, rfl, hb, b, hp⟩
  · obtain ⟨s, rfl, hb, b, hp⟩ := h
    simp [format_roll_value, hb, hp]
  · simp [format_roll_value, hb, hp]
  · simp [template_type, is_child, hp]

/-- C6 (counterexample): the cell text `"inf"` parses as an infinite float,
so `int(float(v))` raises `OverflowError`, which the `except ValueError`
clause does not catch. -/
theorem C6_counterexample :
    format_roll_value (some "inf") = RollResult.overflowError := by
  decide

/-- C6 (witness): the fallback clause instantiated at the unparseable roll
value `"abc"`. -/
theorem C6_witness :
    format_roll_value (some "abc") = RollResult.ok (strTake 3 (zfill 3 "abc")) :=
  C6_amended.2.1 "abc" (by decide) (by decide)

theorem firstDigitRun_of_digits {cs : List Char} (h : pyIsDigitStr cs = true) :
    firstDigitRun cs ≠ none := by
  cases cs with
  | nil => simp [pyIsDigitStr] at h
  | cons c rest =>
    have hc : c.isDigit = true := by
      simp [pyIsDigitStr] at h
      exact h.1
    simp [firstDigitRun, hc]

/-- C4: `parse_class_value` applies its fallback chain in the stated order —
missing value, all-digit string, first digit run anywhere, Roman-numeral
table, ordinal-word table, else no value — with the stated examples. -/
theorem C4_parse_chain :
    parse_class_value none = none
    ∧ (∀ s : String, pyIsDigitStr (classNorm s) = true →
        parse_class_value (some s) = some (digitsToNat (classNorm s)))
    ∧ (∀ s : String, ∀ run : List Char, pyIsDigitStr (classNorm s) = false →
        firstDigitRun (classNorm s) = some run →
        parse_class_value (some s) = some (digitsToNat run))
    ∧ (∀ s : String, ∀ n : Nat, firstDigitRun (classNorm s) = none →
        List.lookup (⟨classNorm s⟩ : String) roman_map = some n →
        parse_class_value (some s) = some n)
    ∧ (∀ s : String, ∀ n : Nat, firstDigitRun (classNorm s) = none →
        List.lookup (⟨classNorm s⟩ : String) roman_map = none →
        List.lookup (⟨classNorm s⟩ : String) words_map = some n →
        parse_class_value (some s) = some n)
    ∧ (∀ s : String, firstDigitRun (classNorm s) = none →
        List.lookup (⟨classNorm s⟩ : String) roman_map = none →
        List.lookup (⟨classNorm s⟩ : String) words_map = none →
        parse_class_value (some s) = none)
    ∧ parse_class_value (some "III") = some 3
    ∧ parse_class_value (some "3") = some 3
    ∧ parse_class_value (some "third") = some 3
    ∧ parse_class_value (some "xii") = some 12 := by
  have digitFalse : ∀ s : String, firstDigitRun (classNorm s) = none →
      pyIsDigitStr (classNorm s) = false := by
    intro s h1
    cases hdd : pyIsDigitStr (classNorm s) with
    | false => rfl
    | true => exact absurd h1 (firstDigitRun_of_digits hdd)
  refine ⟨by decide, fun s hd => ?_, fun s run hd hr => ?_, fun s n h1 h2 => ?_,
    fun s n h1 h2 h3 => ?_, fun s h1 h2 h3 => ?_, by decide, by decide, by decide, by decide⟩
  · simp [parse_class_value, hd]
  · simp [parse_class_value, hd, hr]
  · simp [parse_class_value, digitFalse s h1, h1, h2]
  · simp [parse_class_value, digitFalse s h1, h1, h2, h3]
  · simp [parse_class_value, digitFalse s h1, h1, h2, h3]

/-- C4 (witness): the digit-run clause instantiated at `"grade 10"`. -/
theorem C4_witness :
    parse_class_value (some "grade 10") = some (digitsToNat ['1', '0']) :=
  C4_parse_chain.2.2.1 "grade 10" ['1', '0'] (by decide) (by decide)

/-- C3: a record is routed to the child track exactly when its parsed class
level is 1, 2 or 3 (labels like III and third included); all other parse
results — levels 4 and up, or no value — give the master track; and in the
row loop this boolean alone selects the template name, the bubble-fill
function (hence the calibration constants), and the text-drawing track. -/
theorem C3_track_classification :
    (∀ v : Option String,
        is_child (parse_class_value v) = true ↔
          (parse_class_value v = some 1 ∨ parse_class_value v = some 2 ∨
            parse_class_value v = some 3))
    ∧ is_child (parse_class_value (some "III")) = true
    ∧ is_child (parse_class_value (some "third")) = true
    ∧ template_type (is_child (parse_class_value (some "7"))) = "master"
    ∧ template_type (is_child (parse_class_value (some "unknown"))) = "master"
    ∧ template_type (is_child (parse_class_value none)) = "master"
    ∧ (∀ cmap row p, composeRow cmap row = Except.ok p →
        ∃ roll, rowRoll cmap row = RollResult.ok roll ∧
          p.template = template_type (is_child (rowParsedClass cmap row)) ∧
          (if is_child (rowParsedClass cmap row) then fill_roll_bubbles_child roll
           else fill_roll_bubbles_master roll) = Except.ok p.bubbles ∧
          draw_roll_number_text roll (template_type (is_child (rowParsedClass cmap row)))
            = Except.ok p.glyphs) := by
  refine ⟨fun v => ?_, by decide, by decide, by decide, by decide, by decide,
    fun cmap row p h => ?_⟩
  · cases hp : parse_class_value v with
    | none => simp [is_child]
    | some n => simp [is_child, or_assoc]
  · simp only [composeRow] at h
    cases hr : rowRoll cmap row with
    | overflowError => rw [hr] at h; simp at h
    | ok roll =>
      rw [hr] at h
      simp only [] at h
      cases hf : (if is_child (rowParsedClass cmap row) then fill_roll_bubbles_child roll
          else fill_roll_bubbles_master roll) with
      | error u => rw [hf] at h; simp at h
      | ok bubbles =>
        rw [hf] at h
        cases hg : draw_roll_number_text roll
            (template_type (is_child (rowParsedClass cmap row))) with
        | error u => rw [hg] at h; simp at h
        | ok glyphs =>
          rw [hg] at h
          simp only [Except.ok.injEq] at h
          subst h
          exact ⟨roll, rfl, rfl, hf, hg⟩

/-- C3 (witness): the selection clause instantiated at the sample row, whose
class value is unresolved and therefore routed to the master track. -/
theorem C3_witness :
    ∃ roll, rowRoll sampleColMap sampleRow = RollResult.ok roll ∧
      samplePage.template = template_type (is_child (rowParsedClass sampleColMap sampleRow)) ∧
      (if is_child (rowParsedClass sampleColMap sampleRow)
       then fill_roll_bubbles_child roll
       else fill_roll_bubbles_master roll) = Except.ok samplePage.bubbles ∧
      draw_roll_number_text roll
          (template_type (is_child (rowParsedClass sampleColMap sampleRow)))
        = Except.ok samplePage.glyphs :=
  C3_track_classification.2.2.2.2.2.2 sampleColMap sampleRow samplePage (by rfl)

theorem findExact_eq (aliases : List String) (cols : List (String × String)) :
    findExact aliases cols
      = (cols.find? (fun q => aliases.any (fun a => q.2 == a))).map Prod.fst := by
  induction cols with
  | nil => rfl
  | cons p rest ih =>
    cases h : aliases.any (fun a => p.2 == a) with
    | true => simp [findExact, List.find?, h]
    | false => simp [findExact, List.find?, h, ih]

theorem findLoose_eq (aliases : List String) (cols : List (String × String)) :
    findLoose aliases cols
      = (cols.find? (fun q => aliases.any (fun a => containsSub a.data q.2.data))).map Prod.fst := by
  induction cols with
  | nil => rfl
  | cons p rest ih =>
    cases h : aliases.any (fun a => containsSub a.data p.2.data) with
    | true => simp [findLoose, List.find?, h]
    | false => simp [findLoose, List.find?, h, ih]

/-- C5: over the ordered (original, normalized) header pairs, `find_column`
returns the first pair whose normalized form equals some alias whenever one
exists — regardless of any substring matches and of their positions — and
only otherwise falls back to the first pair whose normalized form contains
some alias as a substring; if neither pass matches, the field is
unresolved. -/
theorem C5_find_column (cols : List (String × String)) (aliases : List String) :
    (∀ p : String × String,
        cols.find? (fun q => aliases.any (fun a => q.2 == a)) = some p →
        find_column cols aliases = some p.1)
    ∧ (cols.find? (fun q => aliases.any (fun a => q.2 == a)) = none →
        find_column cols aliases
          = (cols.find? (fun q => aliases.any (fun a => containsSub a.data q.2.data))).map Prod.fst)
    ∧ (cols.find? (fun q => aliases.any (fun a => q.2 == a)) = none →
        cols.find? (fun q => aliases.any (fun a => containsSub a.data q.2.data)) = none →
        find_column cols aliases = none) := by
  have hE := findExact_eq aliases cols
  have hL := findLoose_eq aliases cols
  refine ⟨fun p hp => ?_, fun hnone => ?_, fun h1 h2 => ?_⟩
  · simp [find_column, hE, hp]
  · simp [find_column, hE, hnone, hL]
  · simp [find_column, hE, h1, hL, h2]

/-- C5 (witness): an exact-alias header placed after a merely-containing
header still wins the resolution. -/
theorem C5_witness :
    find_column [("My Roll No Extra", "myrollnoextra"), ("RollNo", "rollno")] ALIASES_roll_no
      = some "RollNo" :=
  (C5_find_column [("My Roll No Extra", "myrollnoextra"), ("RollNo", "rollno")]
      ALIASES_roll_no).1 ("RollNo", "rollno") (by decide)

theorem mem_collapseWs : ∀ {l : List Char} {c : Char}, c ∈ collapseWs l →
    c = '_' ∨ (c ∈ l ∧ pyIsSpace c = false) := by
  intro l
  induction l with
  | nil => intro c h; simp [collapseWs] at h
  | cons a tail ih =>
    intro c h
    cases tail with
    | nil =>
      by_cases ha : pyIsSpace a = true
      · simp [collapseWs, ha] at h
        exact Or.inl h
      · simp [collapseWs, ha] at h
        subst h
        exact Or.inr ⟨List.mem_cons_self _ _, by simpa using ha⟩
    | cons b rest =>
      by_cases ha : pyIsSpace a = true
      · by_cases hb : pyIsSpace b = true
        · rw [collapseWs, if_pos ha, if_pos hb] at h
          rcases ih h with h1 | ⟨h2, h3⟩
          · exact Or.inl h1
          · exact Or.inr ⟨List.mem_cons_of_mem a h2, h3⟩
        · rw [collapseWs, if_pos ha, if_neg hb] at h
          rcases List.mem_cons.mp h with rfl | h2
          · exact Or.inl rfl
          · rcases ih h2 with h1 | ⟨h3, h4⟩
            · exact Or.inl h1
            · exact Or.inr ⟨List.mem_cons_of_mem a h3, h4⟩
      · rw [collapseWs, if_neg ha] at h
        rcases List.mem_cons.mp h with h1 | h2
        · subst h1
          exact Or.inr ⟨List.mem_cons_self _ _, by simpa using ha⟩
        · rcases ih h2 with h1 | ⟨h3, h4⟩
          · exact Or.inl h1
          · exact Or.inr ⟨List.mem_cons_of_mem _ h3, h4⟩

theorem collapseWs_cons_of_nonspace (c : Char) (rest : List Char) (h : pyIsSpace c = false) :
    collapseWs (c :: rest) = c :: collapseWs rest := by
  cases rest with
  | nil => simp [collapseWs, h]
  | cons b tl =>
    rw [collapseWs, if_neg (by simp [h])]

theorem collapseWs_ws_run : ∀ (run rest : List Char), run ≠ [] →
    (∀ c ∈ run, pyIsSpace c = true) →
    (∀ c, rest.head? = some c → pyIsSpace c = false) →
    collapseWs (run ++ rest) = '_' :: collapseWs rest := by
  intro run
  induction run with
  | nil => intro rest h; exact absurd rfl h
  | cons a tl ih =>
    intro rest _ hall hhead
    have ha : pyIsSpace a = true := hall a (List.mem_cons_self a tl)
    cases tl with
    | nil =>
      cases rest with
      | nil => simp [collapseWs, ha]
      | cons r rs =>
        have hr : pyIsSpace r = false := hhead r rfl
        show collapseWs (a :: r :: rs) = '_' :: collapseWs (r :: rs)
        rw [collapseWs, if_pos ha, if_neg (by simp [hr])]
    | cons b tl2 =>
      have hb : pyIsSpace b = true := hall b (by simp)
      show collapseWs (a :: b :: (tl2 ++ rest)) = '_' :: collapseWs rest
      rw [collapseWs, if_pos ha, if_pos hb]
      exact ih rest (by simp) (fun c hc => hall c (List.mem_cons_of_mem a hc)) hhead

/-- C8: `safe_filename` output contains no reserved filesystem character and
no whitespace, is at most 200 characters long, and the whitespace
substitution collapses every maximal whitespace run of its input to a single
underscore while leaving non-whitespace characters in place. -/
theorem C8_safe_filename :
    (∀ s : String, ∀ c ∈ (safe_filename s).data, c ∉ badChars ∧ pyIsSpace c = false)
    ∧ (∀ s : String, (safe_filename s).data.length ≤ 200)
    ∧ (∀ run rest : List Char, run ≠ [] → (∀ c ∈ run, pyIsSpace c = true) →
        (∀ c, rest.head? = some c → pyIsSpace c = false) →
        collapseWs (run ++ rest) = '_' :: collapseWs rest)
    ∧ (∀ c : Char, ∀ rest : List Char, pyIsSpace c = false →
        collapseWs (c :: rest) = c :: collapseWs rest) := by
  refine ⟨fun s c hc => ?_, fun s => ?_, collapseWs_ws_run, collapseWs_cons_of_nonspace⟩
  · have hc' : c ∈ (collapseWs ((pyStripList s.data).map
        (fun c => if badChars.contains c then '_' else c))).take 200 := hc
    have h1 := List.mem_of_mem_take hc'
    rcases mem_collapseWs h1 with rfl | ⟨h2, h3⟩
    · exact ⟨by decide, by decide⟩
    · rcases List.mem_map.mp h2 with ⟨c0, hc0, heq⟩
      by_cases hb : badChars.contains c0 = true
      · rw [if_pos hb] at heq
        subst heq
        exact ⟨by decide, by decide⟩
      · rw [if_neg hb] at heq
        subst heq
        exact ⟨by simpa using hb, h3⟩
  · show ((collapseWs ((pyStripList s.data).map
        (fun c => if badChars.contains c then '_' else c))).take 200).length ≤ 200
    exact List.length_take_le 200 _

/-- C8 (witness): the run-collapse clause instantiated at a two-space run
followed by a letter. -/
theorem C8_witness :
    collapseWs ([' ', ' '] ++ ['a']) = '_' :: collapseWs ['a'] :=
  C8_safe_filename.2.2.1 [' ', ' '] ['a'] (by decide) (by decide) (by decide)

theorem length_filterMap_digit_enumFrom {β : Type} (f : Nat × Char → β) :
    ∀ (k : Nat) (cs : List Char),
      ((List.enumFrom k cs).filterMap
          (fun p => if p.2.isDigit then some (f p) else none)).length
        = (cs.filter Char.isDigit).length := by
  intro k cs
  induction cs generalizing k with
  | nil => rfl
  | cons c rest ih =>
    cases h : c.isDigit with
    | true => simp [List.enumFrom, h, ih]
    | false => simp [List.enumFrom, h, ih]

theorem bubblesOfSpec_length (xs ys : List ℚ) (sp rad nu : ℚ) (cs : List Char) :
    (bubblesOfSpec xs ys sp rad nu cs).length = (cs.filter Char.isDigit).length := by
  unfold bubblesOfSpec
  exact length_filterMap_digit_enumFrom
    (fun p =>
      ({ x := xs.getD p.1 0 * cm / 2.2
       , y := ys.getD p.1 0 * cm - (digitVal p.2 : ℚ) * sp * cm - 2.6 * cm + nu * cm
       , r := rad * cm
       , color := "black", strokeOn := false, fillOn := true } : Circle)) 0 cs

theorem glyphsOfSpec_length (xs : List ℚ) (ty : ℚ) (cs : List Char) :
    (glyphsOfSpec xs ty cs).length = cs.length := by
  unfold glyphsOfSpec
  rw [List.length_map, List.enum_length]

theorem fillMasterGo_spec (a b c : Char) :
    fillMasterGo [(0, a), (1, b), (2, c)]
      = Except.ok (bubblesOfSpec MASTER_ROLL_X_CM MASTER_BUBBLE_Y_TOP_CM
          MASTER_BUBBLE_SPACING_CM MASTER_BUBBLE_RADIUS_CM 0.03 [a, b, c]) := by
  cases ha : a.isDigit <;> cases hb : b.isDigit <;> cases hc : c.isDigit <;>
    simp [fillMasterGo, bubblesOfSpec, pyIndex, MASTER_ROLL_X_CM, MASTER_BUBBLE_Y_TOP_CM,
      List.enum, List.enumFrom, List.getD, ha, hb, hc]

theorem fillChildGo_spec (a b c : Char) :
    fillChildGo [(0, a), (1, b), (2, c)]
      = Except.ok (bubblesOfSpec CHILD_ROLL_X_CM CHILD_BUBBLE_Y_TOP_CM
          CHILD_BUBBLE_SPACING_CM CHILD_BUBBLE_RADIUS_CM 0.2 [a, b, c]) := by
  cases ha : a.isDigit <;> cases hb : b.isDigit <;> cases hc : c.isDigit <;>
    simp [fillChildGo, bubblesOfSpec, pyIndex, CHILD_ROLL_X_CM, CHILD_BUBBLE_Y_TOP_CM,
      List.enum, List.enumFrom, List.getD, ha, hb, hc]

theorem drawTextGo_master_spec (ty : ℚ) (a b c : Char) :
    drawTextGo MASTER_ROLL_X_CM ty [(0, a), (1, b), (2, c)]
      = Except.ok (glyphsOfSpec MASTER_ROLL_X_CM ty [a, b, c]) := by
  simp [drawTextGo, glyphsOfSpec, pyIndex, MASTER_ROLL_X_CM, List.enum, List.enumFrom,
    List.getD]

theorem drawTextGo_child_spec (ty : ℚ) (a b c : Char) :
    drawTextGo CHILD_ROLL_X_CM ty [(0, a), (1, b), (2, c)]
      = Except.ok (glyphsOfSpec CHILD_ROLL_X_CM ty [a, b, c]) := by
  simp [drawTextGo, glyphsOfSpec, pyIndex, CHILD_ROLL_X_CM, List.enum, List.enumFrom,
    List.getD]

/-- C2: for a 3-character roll string, each fill function succeeds and
draws, for every digit position, a filled black circle with no outline whose
centre is `rollX[i] * cm / 2.2` horizontally and `bubbleYTop[i] * cm` minus
`digit * spacing * cm` minus `2.6 cm` plus the per-track nudge (`0.03 cm`
master, `0.2 cm` child) vertically, with the track's fixed radius; non-digit
positions contribute no bubble, so the bubble count is the digit count. -/
theorem C2_bubble_geometry (roll : String) (h : roll.data.length = 3) :
    fill_roll_bubbles_master roll
      = Except.ok (bubblesOfSpec MASTER_ROLL_X_CM MASTER_BUBBLE_Y_TOP_CM
          MASTER_BUBBLE_SPACING_CM MASTER_BUBBLE_RADIUS_CM 0.03 roll.data)
    ∧ fill_roll_bubbles_child roll
      = Except.ok (bubblesOfSpec CHILD_ROLL_X_CM CHILD_BUBBLE_Y_TOP_CM
          CHILD_BUBBLE_SPACING_CM CHILD_BUBBLE_RADIUS_CM 0.2 roll.data)
    ∧ (bubblesOfSpec MASTER_ROLL_X_CM MASTER_BUBBLE_Y_TOP_CM MASTER_BUBBLE_SPACING_CM
        MASTER_BUBBLE_RADIUS_CM 0.03 roll.data).length
        = (roll.data.filter Char.isDigit).length
    ∧ (bubblesOfSpec CHILD_ROLL_X_CM CHILD_BUBBLE_Y_TOP_CM CHILD_BUBBLE_SPACING_CM
        CHILD_BUBBLE_RADIUS_CM 0.2 roll.data).length
        = (roll.data.filter Char.isDigit).length := by
  have hz : zfill 3 roll = roll := zfill_of_length_le (by omega)
  obtain ⟨a, b, c, habc⟩ := List.length_eq_three.mp h
  refine ⟨?_, ?_, ?_, ?_⟩
  · show fillMasterGo ((zfill 3 roll).data.enum) = _
    rw [hz, habc]
    exact fillMasterGo_spec a b c
  · show fillChildGo ((zfill 3 roll).data.enum) = _
    rw [hz, habc]
    exact fillChildGo_spec a b c
  · exact bubblesOfSpec_length _ _ _ _ _ _
  · exact bubblesOfSpec_length _ _ _ _ _ _

/-- C2 (witness): the geometry theorem instantiated at the roll string
`"0a5"`, whose middle position is a non-digit. -/
theorem C2_witness :
    ("0a5" : String).data.length = 3 ∧
    fill_roll_bubbles_master "0a5"
      = Except.ok (bubblesOfSpec MASTER_ROLL_X_CM MASTER_BUBBLE_Y_TOP_CM
          MASTER_BUBBLE_SPACING_CM MASTER_BUBBLE_RADIUS_CM 0.03 ("0a5" : String).data) ∧
    (bubblesOfSpec MASTER_ROLL_X_CM MASTER_BUBBLE_Y_TOP_CM MASTER_BUBBLE_SPACING_CM
        MASTER_BUBBLE_RADIUS_CM 0.03 ("0a5" : String).data).length
      = (("0a5" : String).data.filter Char.isDigit).length := by
  have h := C2_bubble_geometry "0a5" (by decide)
  exact ⟨by decide, h.1, h.2.2.1⟩

/-- C10 (implicit): the digit-label function draws one centred glyph per
position unconditionally — non-digit positions included — at the same x
positions as the bubbles (`rollX[i] * cm / 2.2`) and a per-track constant
baseline y (`yTop[0] * cm - 2.1 cm` master, `yTop[0] * cm - 2.0 cm` child),
while the bubble-fill functions draw only as many bubbles as there are digit
characters. -/
theorem C10_roll_text (roll : String) (h : roll.data.length = 3) :
    draw_roll_number_text roll "master"
      = Except.ok (glyphsOfSpec MASTER_ROLL_X_CM
          (MASTER_BUBBLE_Y_TOP_CM.getD 0 0 * cm - 2.1 * cm) roll.data)
    ∧ draw_roll_number_text roll "child"
      = Except.ok (glyphsOfSpec CHILD_ROLL_X_CM
          (CHILD_BUBBLE_Y_TOP_CM.getD 0 0 * cm - 2.0 * cm) roll.data)
    ∧ (glyphsOfSpec MASTER_ROLL_X_CM
        (MASTER_BUBBLE_Y_TOP_CM.getD 0 0 * cm - 2.1 * cm) roll.data).length = 3
    ∧ (glyphsOfSpec CHILD_ROLL_X_CM
        (CHILD_BUBBLE_Y_TOP_CM.getD 0 0 * cm - 2.0 * cm) roll.data).length = 3
    ∧ fill_roll_bubbles_master roll
        = Except.ok (bubblesOfSpec MASTER_ROLL_X_CM MASTER_BUBBLE_Y_TOP_CM
            MASTER_BUBBLE_SPACING_CM MASTER_BUBBLE_RADIUS_CM 0.03 roll.data)
    ∧ (bubblesOfSpec MASTER_ROLL_X_CM MASTER_BUBBLE_Y_TOP_CM MASTER_BUBBLE_SPACING_CM
        MASTER_BUBBLE_RADIUS_CM 0.03 roll.data).length
        = (roll.data.filter Char.isDigit).length := by
  have hz : zfill 3 roll = roll := zfill_of_length_le (by omega)
  obtain ⟨a, b, c, habc⟩ := List.length_eq_three.mp h
  refine ⟨?_, ?_, ?_, ?_, ?_, ?_⟩
  · show drawTextGo MASTER_ROLL_X_CM (MASTER_BUBBLE_Y_TOP_CM.getD 0 0 * cm - 2.1 * cm)
        ((zfill 3 roll).data.enum) = _
    rw [hz, habc]
    exact drawTextGo_master_spec _ a b c
  · show drawTextGo CHILD_ROLL_X_CM (CHILD_BUBBLE_Y_TOP_CM.getD 0 0 * cm - 2.0 * cm)
        ((zfill 3 roll).data.enum) = _
    rw [hz, habc]
    exact drawTextGo_child_spec _ a b c
  · rw [glyphsOfSpec_length, h]
  · rw [glyphsOfSpec_length, h]
  · show fillMasterGo ((zfill 3 roll).data.enum) = _
    rw [hz, habc]
    exact fillMasterGo_spec a b c
  · exact bubblesOfSpec_length _ _ _ _ _ _

/-- C10 (witness): the label theorem instantiated at the roll string
`"0-5"`, whose middle character is the minus sign the fallback path can
produce: three glyphs are drawn but only two bubbles. -/
theorem C10_witness :
    ("0-5" : String).data.length = 3 ∧
    (glyphsOfSpec MASTER_ROLL_X_CM
        (MASTER_BUBBLE_Y_TOP_CM.getD 0 0 * cm - 2.1 * cm) ("0-5" : String).data).length = 3 ∧
    (bubblesOfSpec MASTER_ROLL_X_CM MASTER_BUBBLE_Y_TOP_CM MASTER_BUBBLE_SPACING_CM
        MASTER_BUBBLE_RADIUS_CM 0.03 ("0-5" : String).data).length
      = (("0-5" : String).data.filter Char.isDigit).length := by
  have h := C10_roll_text "0-5" (by decide)
  exact ⟨by decide, h.2.2.1, h.2.2.2.2.2⟩

/-- C7: in the 4-row info table, a field whose column is unresolved renders
as its label followed by a single blank space (the empty field value is
falsy, so the f-string substitutes a space rather than nothing). -/
theorem C7_missing_field_blank (cmap : ColMap) (row : List (String × Cell)) (p : Page)
    (h : composeRow cmap row = Except.ok p) :
    (cmap.student_name = none → p.table.getD 0 "" = "Student Name: " ++ " ")
    ∧ (cmap.school_name = none → p.table.getD 1 "" = "School: " ++ " ")
    ∧ (cmap.class_ = none →
        p.table.getD 2 ""
          = "Class: " ++ " " ++ "      Division: " ++ pyCellDisplay (rowGet row cmap.division))
    ∧ (cmap.division = none →
        p.table.getD 2 ""
          = "Class: " ++ pyCellDisplay (rowGet row cmap.class_) ++ "      Division: " ++ " ") := by
  simp only [composeRow] at h
  cases hr : rowRoll cmap row with
  | overflowError => rw [hr] at h; simp at h
  | ok roll =>
    rw [hr] at h
    simp only [] at h
    cases hf : (if is_child (rowParsedClass cmap row) then fill_roll_bubbles_child roll
        else fill_roll_bubbles_master roll) with
    | error u => rw [hf] at h; simp at h
    | ok bubbles =>
      rw [hf] at h
      cases hg : draw_roll_number_text roll
          (template_type (is_child (rowParsedClass cmap row))) with
      | error u => rw [hg] at h; simp at h
      | ok glyphs =>
        rw [hg] at h
        simp only [Except.ok.injEq] at h
        subst h
        refine ⟨fun hm => ?_, fun hm => ?_, fun hm => ?_, fun hm => ?_⟩
        all_goals simp [infoTableData, rowGet, hm, pyCellDisplay]

/-- C7 (witness): the table theorem instantiated at the sample row, all of
whose columns are unresolved. -/
theorem C7_witness :
    (sampleColMap.student_name = none →
        samplePage.table.getD 0 "" = "Student Name: " ++ " ")
    ∧ (sampleColMap.school_name = none →
        samplePage.table.getD 1 "" = "School: " ++ " ")
    ∧ (sampleColMap.class_ = none →
        samplePage.table.getD 2 ""
          = "Class: " ++ " " ++ "      Division: "
              ++ pyCellDisplay (rowGet sampleRow sampleColMap.division))
    ∧ (sampleColMap.division = none →
        samplePage.table.getD 2 ""
          = "Class: " ++ pyCellDisplay (rowGet sampleRow sampleColMap.class_)
              ++ "      Division: " ++ " ") :=
  C7_missing_field_blank sampleColMap sampleRow samplePage (by rfl)

/-- C9 (amended): a worksheet that fails to read is skipped with one warning
while processing continues; a readable worksheet whose rows all compose
without an uncaught exception contributes exactly one archive entry named
from its sanitized name with the `.pdf` extension; but a readable worksheet
containing a row that raises (`OverflowError` from an infinite-float roll,
or `IndexError` from a 4-or-more-character numeric roll) aborts the entire
run, which then produces no archive at all. -/
theorem C9_amended (n1 e n2 : String) (t : Table) :
    (∀ pages, processSheet t = Except.ok pages →
        processWorkbook [(n1, Except.error e), (n2, Except.ok t)]
          = Except.ok ([readWarning n1 e], [(safe_filename n2 ++ ".pdf", pages)]))
    ∧ (processSheet t = Except.error () →
        processWorkbook [(n1, Except.error e), (n2, Except.ok t)] = Except.error ())
    ∧ (∀ rest, processWorkbook ((n1, Except.error e) :: rest)
        = (processWorkbook rest).map (fun pr => (readWarning n1 e :: pr.1, pr.2))) := by
  refine ⟨fun pages h => ?_, fun h => ?_, fun rest => ?_⟩
  · simp [processWorkbook, h]
  · simp [processWorkbook, h]
  · cases hr : processWorkbook rest with
    | ok pr => simp [processWorkbook, hr, Except.map]
    | error u => simp [processWorkbook, hr, Except.map]

/-- C9 (counterexample): a workbook with one unreadable worksheet and one
readable worksheet whose single roll cell is `"1234"` does not produce an
archive with an entry for the readable worksheet — the run aborts with the
uncaught `IndexError` raised while filling the fourth bubble. -/
theorem C9_counterexample :
    processWorkbook [("bad", Except.error "boom"), ("ok", Except.ok crashTable)]
      = Except.error () := by
  rfl

/-- C9 (witness): a concrete workbook with one unreadable sheet and one
valid sheet whose rows all compose. -/
theorem C9_witness :
    processWorkbook [("bad", Except.error "boom"), ("roster", Except.ok sampleTable)]
      = Except.ok ([readWarning "bad" "boom"],
          [(safe_filename "roster" ++ ".pdf", samplePages)]) :=
  (C9_amended "bad" "boom" "roster" sampleTable).1 samplePages (by rfl)

end OMRGen
